import Mathlib

/-!
Verification development for the EasyHelm chart generator (src/easyhelm.py).

The script is a single linear pipeline: prompt collection, values assembly
(`generate_values`), template rendering (`generate_deployment`,
`generate_serviceaccount`, `generate_rbac`) and file writing
(`generate_chart_files`).  We embed it shallowly: the interactive input
channel becomes a list of answer lines (one entry per `input()` call, an
exhausted list models end-of-input and fails like the Python `EOFError`),
Python dict/list values become the inductive `Yaml` type (association lists
keep the dict insertion order of Python 3.7+), and the filesystem side
effects become an explicit list of `FsOp` operations returned on success.
-/

namespace EasyHelm

/-- Model of the Python values passed around by the script: strings, ints,
booleans, lists and (insertion-ordered) string-keyed dicts. -/
inductive Yaml where
  | str (s : String)
  | int (n : Int)
  | bool (b : Bool)
  | list (items : List Yaml)
  | map (entries : List (String × Yaml))

/-- ASCII lowercasing of one character, as `str.lower` acts on ASCII input
(all inputs relevant to the gating logic are ASCII). -/
def lowerChar (c : Char) : Char :=
  if 65 ≤ c.toNat ∧ c.toNat ≤ 90 then Char.ofNat (c.toNat + 32) else c

/-- Model of the Python `str.lower()` method (ASCII fragment). -/
def pyLower (s : String) : String :=
  ⟨s.data.map lowerChar⟩

/-- Digits-to-number accumulator used by `pyInt`. -/
def natOfDigitsAux : List Char → Nat → Option Nat
  | [], acc => some acc
  | c :: cs, acc =>
    if c.isDigit then natOfDigitsAux cs (acc * 10 + (c.toNat - 48)) else none

/-- A non-empty all-digit character list read as a natural number. -/
def natOfDigits (cs : List Char) : Option Nat :=
  match cs with
  | [] => none
  | _ => natOfDigitsAux cs 0

/-- Model of the Python `int(...)` conversion on a string: optional surrounding spaces,
an optional sign, then one or more digits; anything else raises
`ValueError` (modelled as `none`). -/
def pyInt (s : String) : Option Int :=
  let cs := (((s.data.dropWhile (· = ' ')).reverse.dropWhile (· = ' ')).reverse)
  match cs with
  | '-' :: rest => (natOfDigits rest).map (fun n => -(n : Int))
  | '+' :: rest => (natOfDigits rest).map (fun n => (n : Int))
  | rest => (natOfDigits rest).map (fun n => (n : Int))

/-- Helper for `split_first_eq`: scan for the first `'='`, keeping the
characters already passed in `acc` (reversed). -/
def splitEqAux : List Char → List Char → Option (String × String)
  | [], _ => none
  | c :: cs, acc =>
    if c = '=' then some (⟨acc.reverse⟩, ⟨cs⟩) else splitEqAux cs (c :: acc)

/-- Model of `env_input.split('=', 1)` unpacked into two names: `none` when
the entry has no `'='` (Python raises `ValueError` there). -/
def split_first_eq (s : String) : Option (String × String) :=
  splitEqAux s.data []

/-- The fixed resources block installed on a yes answer
(src/easyhelm.py lines 203-212). -/
def resourcesFixed : Yaml :=
  .map [("limits", .map [("cpu", .str "0.5"), ("memory", .str "512Mi")]),
        ("requests", .map [("cpu", .str "100m"), ("memory", .str "256Mi")])]

/-- The fixed security-context block installed on a yes answer
(src/easyhelm.py lines 217-222).  Note `readOnlyRootFilesystem` is `False`
in the source. -/
def securityContextFixed : Yaml :=
  .map [("allowPrivilegeEscalation", .bool false),
        ("readOnlyRootFilesystem", .bool false),
        ("runAsNonRoot", .bool true),
        ("runAsUser", .int 1000)]

/-- The probes value before the probes question, `{"enabled": False}`
(src/easyhelm.py line 230). -/
def probesDisabled : Yaml :=
  .map [("enabled", .bool false)]

/-- The fixed probes block installed on a yes answer
(src/easyhelm.py lines 233-239). -/
def probesEnabled : Yaml :=
  .map [("enabled", .bool true),
        ("settings", .map [("livenessProbeInitialDelaySeconds", .int 180),
                           ("readinessProbeInitialDelaySeconds", .int 180)])]

/-- `generate_values` (src/easyhelm.py lines 9-35): folds the collected
answers into the values dict (as an insertion-ordered association list) and
the three derived names.  The env entries are the name/value
dicts built at line 189, modelled here as pairs. -/
def generate_values (chart_name namespace_v image : String) (replicas : Int)
    (env_vars : List (String × String)) (args : List String)
    (resources security_context : Option Yaml)
    (image_pull_secrets : List String) (probes : Yaml) :
    List (String × Yaml) × String × String × String :=
  let deployment_name := chart_name ++ "-deployment"
  let service_name := chart_name ++ "-service"
  let service_account_name := chart_name ++ "-serviceaccount"
  let values : List (String × Yaml) :=
    [("namespace", .str namespace_v),
     ("replicaCount", .int replicas),
     ("image", .map [("repository", .str image),
                     ("pullPolicy", .str "Always"),
                     ("tag", .str "latest")]),
     ("resources", resources.getD (.map [])),
     ("securityContext", security_context.getD (.map [])),
     ("automountServiceAccountToken", .bool false),
     ("imagePullSecrets", .list (image_pull_secrets.map (fun s => .map [("name", .str s)]))),
     ("nameOverride", .str deployment_name),
     ("fullnameOverride", .str deployment_name),
     ("serviceAccount", .map [("name", .str service_account_name)]),
     ("probes", probes),
     ("env", .list (env_vars.map (fun kv => .map [("name", .str kv.1), ("value", .str kv.2)]))),
     ("args", .list ((if args.isEmpty then [] else args).map (fun a => .str a)))]
  (values, deployment_name, service_name, service_account_name)

/-- Errors that abort the run before any file is written: `eofReached`
models the Python `EOFError` on an exhausted input stream, the other two model
the uncaught `ValueError`s of the collector. -/
inductive CErr where
  | eofReached
  | badReplicas (s : String)
  | badEnvEntry (s : String)
deriving DecidableEq

/-- The answers gathered by the prompt collector
(src/easyhelm.py lines 176-241), i.e. the local variables of
`generate_chart_files` at line 243. -/
structure ChartRequest where
  chart_name : String
  namespace_v : String
  image : String
  replicas : Int
  env_vars : List (String × String)
  args : List String
  resources : Option Yaml
  security_context : Option Yaml
  image_pull_secrets : List String
  probes : Yaml
  rbac_type : String

/-- `ask_question` with a default (src/easyhelm.py lines 4-7): read one
line; an empty line resolves to the default. -/
def ask1 (inp : List String) (dflt : String) : Except CErr (String × List String) :=
  match inp with
  | [] => .error .eofReached
  | s :: rest => .ok (if s = "" then dflt else s, rest)

/-- `ask_question` without a default: read one raw line (Python would
return `None` for an empty line; the callers only test emptiness, which we
model directly on the string). -/
def askOpt (inp : List String) : Except CErr (String × List String) :=
  match inp with
  | [] => .error .eofReached
  | s :: rest => .ok (s, rest)

/-- The environment-variable loop (src/easyhelm.py lines 184-189): read
entries until an empty line; an entry without `'='` aborts the run. -/
def collectEnvVars : List String → Except CErr (List (String × String) × List String)
  | [] => .error .eofReached
  | s :: rest =>
    if s = "" then .ok ([], rest)
    else
      match split_first_eq s with
      | none => .error (.badEnvEntry s)
      | some kv =>
        match collectEnvVars rest with
        | .error e => .error e
        | .ok (more, rest2) => .ok (kv :: more, rest2)

/-- The container-arguments loop (src/easyhelm.py lines 194-198): read
arguments until an empty line, appending each verbatim. -/
def collectArgs : List String → Except CErr (List String × List String)
  | [] => .error .eofReached
  | s :: rest =>
    if s = "" then .ok ([], rest)
    else
      match collectArgs rest with
      | .error e => .error e
      | .ok (more, rest2) => .ok (s :: more, rest2)

/-- The prompt-collection phase of `generate_chart_files`
(src/easyhelm.py lines 176-241), reading the answer lines in program
order.  Written with explicit matches so that it reduces step by step. -/
def collectAnswers (input : List String) : Except CErr ChartRequest :=
  match ask1 input "my-chart" with
  | .error e => .error e
  | .ok (chart_name, inp1) =>
  match ask1 inp1 "default" with
  | .error e => .error e
  | .ok (namespace_v, inp2) =>
  match ask1 inp2 "my-image" with
  | .error e => .error e
  | .ok (image, inp3) =>
  match ask1 inp3 "1" with
  | .error e => .error e
  | .ok (replicas_s, inp4) =>
  match pyInt replicas_s with
  | none => .error (.badReplicas replicas_s)
  | some replicas =>
  match ask1 inp4 "no" with
  | .error e => .error e
  | .ok (add_env, inp5) =>
  match (if pyLower add_env = "yes" then collectEnvVars inp5 else .ok ([], inp5)) with
  | .error e => .error e
  | .ok (env_vars, inp6) =>
  match ask1 inp6 "no" with
  | .error e => .error e
  | .ok (add_args, inp7) =>
  match (if pyLower add_args = "yes" then collectArgs inp7 else .ok ([], inp7)) with
  | .error e => .error e
  | .ok (args, inp8) =>
  match ask1 inp8 "no" with
  | .error e => .error e
  | .ok (add_resources, inp9) =>
  let resources : Option Yaml :=
    if pyLower add_resources = "yes" then some resourcesFixed else none
  match ask1 inp9 "no" with
  | .error e => .error e
  | .ok (add_security_context, inp10) =>
  let security_context : Option Yaml :=
    if pyLower add_security_context = "yes" then some securityContextFixed else none
  match ask1 inp10 "no" with
  | .error e => .error e
  | .ok (add_image_pull_secrets, inp11) =>
  match (if pyLower add_image_pull_secrets = "yes" then
           (match askOpt inp11 with
            | .error e => .error e
            | .ok (secret_name, inpS) =>
              .ok ([secret_name], inpS) : Except CErr (List String × List String))
         else .ok (([] : List String), inp11)) with
  | .error e => .error e
  | .ok (image_pull_secrets, inp12) =>
  match ask1 inp12 "no" with
  | .error e => .error e
  | .ok (add_probes, inp13) =>
  let probes := if pyLower add_probes = "yes" then probesEnabled else probesDisabled
  match ask1 inp13 "0" with
  | .error e => .error e
  | .ok (rbac_type, _inp14) =>
  .ok { chart_name, namespace_v, image, replicas, env_vars, args,
        resources, security_context, image_pull_secrets, probes, rbac_type }

/-- First-match lookup in an association list, as Python dict indexing on
the modelled dicts (keys are unique in every dict the script builds). -/
def lookupKey (k : String) : List (String × Yaml) → Option Yaml
  | [] => none
  | (k2, v) :: rest => if k2 = k then some v else lookupKey k rest

/-- Digit expansion of a natural number, fuel-driven so that it reduces by
kernel computation. -/
def natDigitsAux : Nat → Nat → List Char
  | 0, _ => []
  | f + 1, n =>
    if n < 10 then [Char.ofNat (48 + n)]
    else natDigitsAux f (n / 10) ++ [Char.ofNat (48 + n % 10)]

/-- Decimal rendering of a natural number. -/
def natStr (n : Nat) : String :=
  ⟨natDigitsAux (n + 1) n⟩

/-- Decimal rendering of an integer. -/
def intStr (n : Int) : String :=
  if n < 0 then "-" ++ natStr n.natAbs else natStr n.natAbs

/-- Code-point lexicographic order on character lists, the order the Python `sorted` builtin gives on the ASCII key strings involved here. -/
def lexLe : List Char → List Char → Bool
  | [], _ => true
  | _ :: _, [] => false
  | a :: xs, b :: ys =>
    if a.toNat < b.toNat then true
    else if b.toNat < a.toNat then false
    else lexLe xs ys

/-- Lexicographic comparison of strings by code points. -/
def strLeb (a b : String) : Bool :=
  lexLe a.data b.data

/-- Insert one entry into a key-sorted association list (stable). -/
def insortKey (p : String × Yaml) : List (String × Yaml) → List (String × Yaml)
  | [] => [p]
  | q :: rest => if strLeb p.1 q.1 then p :: q :: rest else q :: insortKey p rest

/-- Sort a mapping's entries by key.  `yaml.dump` is called without
arguments at src/easyhelm.py line 261, and the PyYAML default is
`sort_keys=True`: every mapping is emitted with its keys in sorted order,
not in insertion order. -/
def sortEntries (entries : List (String × Yaml)) : List (String × Yaml) :=
  entries.foldr insortKey []

/-- The top-level key order of the serialized `values.yaml`: the sorted
keys of the values mapping (PyYAML `sort_keys=True` default). -/
def dumpTopLevelKeys (values : List (String × Yaml)) : List String :=
  (sortEntries values).map Prod.fst

/-- Indentation helper. -/
def spacesN : Nat → String
  | 0 => ""
  | n + 1 => " " ++ spacesN n

/-- Flow-style rendering of a value, used for scalars and for values nested
inside sequences; mappings are emitted with sorted keys as PyYAML does. -/
def scalarStr : Nat → Yaml → String
  | _, .str s => s
  | _, .int n => intStr n
  | _, .bool b => if b then "true" else "false"
  | 0, _ => ""
  | f + 1, .list items =>
    "[" ++ String.intercalate ", " (items.map (fun y => scalarStr f y)) ++ "]"
  | f + 1, .map entries =>
    "\x7b" ++ String.intercalate ", "
      ((sortEntries entries).map (fun e => e.1 ++ ": " ++ scalarStr f e.2)) ++ "\x7d"

/-- Block-style rendering of the values document, modelling the shape of
the default PyYAML output: mappings one key per line with sorted keys, empty
collections in flow style, nested mappings indented two further spaces.
No claim depends on the exact text, only on the key ordering
(`dumpTopLevelKeys`). -/
def yamlDumpAux : Nat → Nat → Yaml → String
  | 0, _, _ => ""
  | f + 1, ind, .map entries =>
    String.join ((sortEntries entries).map (fun e =>
      match e.2 with
      | .map [] => spacesN ind ++ e.1 ++ ": \x7b\x7d\n"
      | .list [] => spacesN ind ++ e.1 ++ ": []\n"
      | .map _ => spacesN ind ++ e.1 ++ ":\n" ++ yamlDumpAux f (ind + 2) e.2
      | .list _ => spacesN ind ++ e.1 ++ ":\n" ++ yamlDumpAux f ind e.2
      | v => spacesN ind ++ e.1 ++ ": " ++ scalarStr f v ++ "\n"))
  | f + 1, ind, .list items =>
    String.join (items.map (fun y => spacesN ind ++ "- " ++ scalarStr f y ++ "\n"))
  | _ + 1, _, y => scalarStr 8 y

/-- Model of `yaml.dump(values, f)` (src/easyhelm.py line 261). -/
def pyyamlDump (values : List (String × Yaml)) : String :=
  yamlDumpAux 8 0 (.map values)

/-- Whether `pat` is a prefix of `s` (character lists). -/
def isPref : List Char → List Char → Bool
  | [], _ => true
  | _ :: _, [] => false
  | p :: ps, c :: cs => p == c && isPref ps cs

/-- Whether `pat` occurs as a contiguous substring. -/
def occursChars (pat : List Char) : List Char → Bool
  | [] => isPref pat []
  | c :: cs => isPref pat (c :: cs) || occursChars pat cs

/-- Substring occurrence on strings. -/
def occursStr (pat s : String) : Bool :=
  occursChars pat.data s.data

/-- Number of (possibly overlapping) occurrences of `pat`. -/
def occCountChars (pat : List Char) : List Char → Nat
  | [] => if isPref pat [] then 1 else 0
  | c :: cs => (if isPref pat (c :: cs) then 1 else 0) + occCountChars pat cs

/-- Occurrence count on strings. -/
def occCount (pat s : String) : Nat :=
  occCountChars pat.data s.data

/-- Helm-style field access used by the modelled downstream evaluation:
looking a key up in a mapping, with a missing key or a non-mapping receiver
giving an empty (falsy) value, as `.Values.x.y` on missing data renders
empty. -/
def yGet (y : Yaml) (k : String) : Yaml :=
  match y with
  | .map entries => (lookupKey k entries).getD (.map [])
  | _ => .map []

/-- Scalar printing of a value interpolated for a placeholder. -/
def yStr : Yaml → String
  | .str s => s
  | .int n => intStr n
  | .bool b => if b then "true" else "false"
  | _ => ""

/-- Truthiness driving the template conditionals: empty strings,
collections and zero are falsy, as in Python and in the downstream
templating engine. -/
def yTruthy : Yaml → Bool
  | .str s => !(s == "")
  | .int n => !(n == 0)
  | .bool b => b
  | .list items => !items.isEmpty
  | .map entries => !entries.isEmpty

/-- The literal deployment template returned by `generate_deployment`
(src/easyhelm.py lines 38-98).  The braces of the downstream templating
syntax are written with character escapes. -/
def deploymentTemplate : String :=
  "
apiVersion: apps/v1
kind: Deployment
metadata:
  name: \x7b\x7b .Values.nameOverride | default .Chart.Name \x7d\x7d
  namespace: \x7b\x7b .Values.namespace \x7d\x7d
spec:
  replicas: \x7b\x7b .Values.replicaCount \x7d\x7d
  selector:
    matchLabels:
      app: \x7b\x7b .Values.nameOverride | default .Chart.Name \x7d\x7d
  template:
    metadata:
      labels:
        app: \x7b\x7b .Values.nameOverride | default .Chart.Name \x7d\x7d
    spec:
      containers:
      - name: \x7b\x7b .Values.nameOverride | default .Chart.Name \x7d\x7d
        image: \x7b\x7b .Values.image.repository \x7d\x7d:\x7b\x7b .Values.image.tag \x7d\x7d
        imagePullPolicy: \x7b\x7b .Values.image.pullPolicy \x7d\x7d
        \x7b\x7b- if .Values.env \x7d\x7d
        env:
        \x7b\x7b- range .Values.env \x7d\x7d
        - name: \x7b\x7b .name \x7d\x7d
          value: \x7b\x7b .value \x7d\x7d
        \x7b\x7b- end \x7d\x7d
        \x7b\x7b- end \x7d\x7d
        \x7b\x7b- if .Values.args \x7d\x7d
        args:
        \x7b\x7b- range .Values.args \x7d\x7d
        - \x7b\x7b . \x7d\x7d
        \x7b\x7b- end \x7d\x7d
        \x7b\x7b- end \x7d\x7d
        \x7b\x7b- if .Values.resources \x7d\x7d
        resources:
          requests:
            memory: \x7b\x7b .Values.resources.requests.memory \x7d\x7d
            cpu: \x7b\x7b .Values.resources.requests.cpu \x7d\x7d
          limits:
            memory: \x7b\x7b .Values.resources.limits.memory \x7d\x7d
            cpu: \x7b\x7b .Values.resources.limits.cpu \x7d\x7d
        \x7b\x7b- end \x7d\x7d
        \x7b\x7b- if .Values.securityContext \x7d\x7d
        securityContext:
          \x7b\x7b- toYaml .Values.securityContext | nindent 10 \x7d\x7d
        \x7b\x7b- end \x7d\x7d
        \x7b\x7b- if .Values.probes.enabled \x7d\x7d
        livenessProbe:
          initialDelaySeconds: \x7b\x7b .Values.probes.settings.livenessProbeInitialDelaySeconds \x7d\x7d
        readinessProbe:
          initialDelaySeconds: \x7b\x7b .Values.probes.settings.readinessProbeInitialDelaySeconds \x7d\x7d
        \x7b\x7b- end \x7d\x7d
      serviceAccountName: \x7b\x7b .Values.serviceAccount.name \x7d\x7d
      automountServiceAccountToken: \x7b\x7b .Values.automountServiceAccountToken \x7d\x7d
      \x7b\x7b- if .Values.imagePullSecrets \x7d\x7d
      imagePullSecrets:
      \x7b\x7b- range .Values.imagePullSecrets \x7d\x7d
      - name: \x7b\x7b .name \x7d\x7d
      \x7b\x7b- end \x7d\x7d
      \x7b\x7b- end \x7d\x7d
"

/-- The literal service-account template (src/easyhelm.py lines 102-108). -/
def serviceaccountTemplate : String :=
  "
apiVersion: v1
kind: ServiceAccount
metadata:
  name: \x7b\x7b .Values.serviceAccount.name \x7d\x7d
  namespace: \x7b\x7b .Values.namespace \x7d\x7d
"

/-- The literal cluster-scoped RBAC template returned for mode "1"
(src/easyhelm.py lines 113-141). -/
def rbacClusterTemplate : String :=
  "
apiVersion: rbac.authorization.k8s.io/v1
kind: ClusterRole
metadata:
  name: \x7b\x7b .Values.serviceAccount.name \x7d\x7d
rules:
  - apiGroups: [\"\"]
    resources: [\"services\",\"endpoints\",\"pods\"]
    verbs: [\"get\",\"watch\",\"list\"]
  - apiGroups: [\"extensions\",\"networking.k8s.io\"]
    resources: [\"ingresses\"]
    verbs: [\"get\",\"watch\",\"list\"]
  - apiGroups: [\"\"]
    resources: [\"nodes\"]
    verbs: [\"list\"]
---
apiVersion: rbac.authorization.k8s.io/v1
kind: ClusterRoleBinding
metadata:
  name: \x7b\x7b .Values.serviceAccount.name \x7d\x7d-binding
roleRef:
  apiGroup: rbac.authorization.k8s.io
  kind: ClusterRole
  name: \x7b\x7b .Values.serviceAccount.name \x7d\x7d
subjects:
  - kind: ServiceAccount
    name: \x7b\x7b .Values.serviceAccount.name \x7d\x7d
    namespace: \x7b\x7b .Values.namespace \x7d\x7d
"

/-- The literal namespace-scoped RBAC template returned for mode "2"
(src/easyhelm.py lines 143-172). -/
def rbacNamespacedTemplate : String :=
  "
apiVersion: rbac.authorization.k8s.io/v1
kind: Role
metadata:
  name: \x7b\x7b .Values.serviceAccount.name \x7d\x7d
  namespace: \x7b\x7b .Values.namespace \x7d\x7d
rules:
  - apiGroups: [\"\"]
    resources: [\"services\",\"endpoints\",\"pods\"]
    verbs: [\"get\",\"watch\",\"list\"]
  - apiGroups: [\"extensions\",\"networking.k8s.io\"]
    resources: [\"ingresses\"]
    verbs: [\"get\",\"watch\",\"list\"]
  - apiGroups: [\"\"]
    resources: [\"nodes\"]
    verbs: [\"list\"]
---
apiVersion: rbac.authorization.k8s.io/v1
kind: RoleBinding
metadata:
  name: \x7b\x7b .Values.serviceAccount.name \x7d\x7d-binding
roleRef:
  apiGroup: rbac.authorization.k8s.io
  kind: Role
  name: \x7b\x7b .Values.serviceAccount.name \x7d\x7d
subjects:
  - kind: ServiceAccount
    name: \x7b\x7b .Values.serviceAccount.name \x7d\x7d
    namespace: \x7b\x7b .Values.namespace \x7d\x7d
"

/-- `generate_deployment` (src/easyhelm.py lines 37-98): the values are
accepted but unused; the function returns the fixed template text. -/
def generate_deployment (_values : List (String × Yaml)) : String :=
  deploymentTemplate

/-- `generate_serviceaccount` (src/easyhelm.py lines 100-109): emits the
template only when the values document carries a truthy
`serviceAccount.name`. -/
def generate_serviceaccount (values : List (String × Yaml)) : String :=
  if yTruthy (yGet (yGet (.map values) "serviceAccount") "name") then
    serviceaccountTemplate
  else ""

/-- `generate_rbac` (src/easyhelm.py lines 111-173): branch on the literal
mode string, the values argument being unused by the source as well. -/
def generate_rbac (rbac_type : String) (_values : List (String × Yaml)) : String :=
  if rbac_type = "1" then rbacClusterTemplate
  else if rbac_type = "2" then rbacNamespacedTemplate
  else ""

/-- The filesystem side effects of a successful run, in program order. -/
inductive FsOp where
  | mkdirAll (path : String)
  | write (path : String) (content : String)

/-- The values document assembled from a collected request, i.e. the first
component of the `generate_values` call at src/easyhelm.py lines 243-245. -/
def valuesOf (r : ChartRequest) : List (String × Yaml) :=
  (generate_values r.chart_name r.namespace_v r.image r.replicas r.env_vars r.args
    r.resources r.security_context r.image_pull_secrets r.probes).1

/-- `generate_chart_files` (src/easyhelm.py lines 175-275): collect all
answers first; only on success perform the directory creation and the five
file writes, in source order.  The `Chart.yaml` content reproduces the
f-string at lines 252-257 (including its leading newline and trailing
indentation). -/
def generate_chart_files (input : List String) : Except CErr (List FsOp) :=
  match collectAnswers input with
  | .error e => .error e
  | .ok r =>
    let values := valuesOf r
    .ok [
      .mkdirAll (r.chart_name ++ "/templates"),
      .write (r.chart_name ++ "/Chart.yaml")
        ("\napiVersion: v2\nname: " ++ r.chart_name ++
         "\ndescription: A Helm chart for Kubernetes\nversion: 0.1.0\n    "),
      .write (r.chart_name ++ "/values.yaml") (pyyamlDump values),
      .write (r.chart_name ++ "/templates/deployment.yaml") (generate_deployment values),
      .write (r.chart_name ++ "/templates/serviceaccount.yaml") (generate_serviceaccount values),
      .write (r.chart_name ++ "/templates/rbac.yaml") (generate_rbac r.rbac_type values)]

/-- The file/directory operations actually performed by a run: none when
the run aborts with an error during prompt collection. -/
def emittedWrites : Except CErr (List FsOp) → List FsOp
  | .error _ => []
  | .ok ops => ops

/-- Modelled from the spec: the repository writes `templates/deployment.yaml`
as an unevaluated template and the evaluation is performed later by an
external templating engine, which is not part of the source tree.  Per the
spec, that evaluation conditionally includes the optional sections (env,
args, resources, security context, probes, pull secrets) "only when the
corresponding source value is present/non-empty/enabled" and resolves each
placeholder to the referenced field of the values document.  This function
performs that evaluation of the fixed skeleton of `generate_deployment`
against a values document. -/
def renderedDeployment (values : List (String × Yaml)) : String :=
  let v : Yaml := .map values
  let nm := yStr (yGet v "nameOverride")
  let envItems := match yGet v "env" with | .list items => items | _ => []
  let argItems := match yGet v "args" with | .list items => items | _ => []
  let secretItems := match yGet v "imagePullSecrets" with | .list items => items | _ => []
  let scEntries := match yGet v "securityContext" with | .map es => sortEntries es | _ => []
  "\napiVersion: apps/v1\nkind: Deployment\nmetadata:\n  name: " ++ nm
  ++ "\n  namespace: " ++ yStr (yGet v "namespace")
  ++ "\nspec:\n  replicas: " ++ yStr (yGet v "replicaCount")
  ++ "\n  selector:\n    matchLabels:\n      app: " ++ nm
  ++ "\n  template:\n    metadata:\n      labels:\n        app: " ++ nm
  ++ "\n    spec:\n      containers:\n      - name: " ++ nm
  ++ "\n        image: " ++ yStr (yGet (yGet v "image") "repository")
  ++ ":" ++ yStr (yGet (yGet v "image") "tag")
  ++ "\n        imagePullPolicy: " ++ yStr (yGet (yGet v "image") "pullPolicy")
  ++ (if yTruthy (yGet v "env") then
        "\n        env:" ++ String.join (envItems.map (fun it =>
          "\n        - name: " ++ yStr (yGet it "name") ++
          "\n          value: " ++ yStr (yGet it "value")))
      else "")
  ++ (if yTruthy (yGet v "args") then
        "\n        args:" ++ String.join (argItems.map (fun it => "\n        - " ++ yStr it))
      else "")
  ++ (if yTruthy (yGet v "resources") then
        "\n        resources:\n          requests:\n            memory: "
        ++ yStr (yGet (yGet (yGet v "resources") "requests") "memory")
        ++ "\n            cpu: " ++ yStr (yGet (yGet (yGet v "resources") "requests") "cpu")
        ++ "\n          limits:\n            memory: "
        ++ yStr (yGet (yGet (yGet v "resources") "limits") "memory")
        ++ "\n            cpu: " ++ yStr (yGet (yGet (yGet v "resources") "limits") "cpu")
      else "")
  ++ (if yTruthy (yGet v "securityContext") then
        "\n        securityContext:" ++ String.join (scEntries.map (fun e =>
          "\n          " ++ e.1 ++ ": " ++ scalarStr 4 e.2))
      else "")
  ++ (if yTruthy (yGet (yGet v "probes") "enabled") then
        "\n        livenessProbe:\n          initialDelaySeconds: "
        ++ yStr (yGet (yGet (yGet v "probes") "settings") "livenessProbeInitialDelaySeconds")
        ++ "\n        readinessProbe:\n          initialDelaySeconds: "
        ++ yStr (yGet (yGet (yGet v "probes") "settings") "readinessProbeInitialDelaySeconds")
      else "")
  ++ "\n      serviceAccountName: " ++ yStr (yGet (yGet v "serviceAccount") "name")
  ++ "\n      automountServiceAccountToken: " ++ yStr (yGet v "automountServiceAccountToken")
  ++ (if yTruthy (yGet v "imagePullSecrets") then
        "\n      imagePullSecrets:" ++ String.join (secretItems.map (fun it =>
          "\n      - name: " ++ yStr (yGet it "name")))
      else "")
  ++ "\n"

/-- The request produced by an all-default run with chart name `demo`,
image `img`: used as a reference point by several gating theorems. -/
def baseReq : ChartRequest :=
  { chart_name := "demo", namespace_v := "default", image := "img", replicas := 1,
    env_vars := [], args := [], resources := none, security_context := none,
    image_pull_secrets := [], probes := probesDisabled, rbac_type := "0" }

/-- C10: in every values document produced by the assembler the image block
fixes `pullPolicy = "Always"` and `tag = "latest"` (with the image answer as repository), and `automountServiceAccountToken` is `false`,
whatever the collected answers were. -/
theorem c10_fixed_image_block_and_automount
    (chart_name namespace_v image : String) (replicas : Int)
    (env_vars : List (String × String)) (args : List String)
    (resources security_context : Option Yaml)
    (image_pull_secrets : List String) (probes : Yaml) :
    lookupKey "image" (generate_values chart_name namespace_v image replicas env_vars
        args resources security_context image_pull_secrets probes).1
      = some (.map [("repository", .str image), ("pullPolicy", .str "Always"),
                    ("tag", .str "latest")])
    ∧ lookupKey "automountServiceAccountToken" (generate_values chart_name namespace_v
        image replicas env_vars args resources security_context image_pull_secrets probes).1
      = some (.bool false) :=
  ⟨rfl, rfl⟩

/-- C6: for every non-empty chart name the three derived names are the
chart name followed by `-deployment`, `-service` and `-serviceaccount`. -/
theorem c6_derived_names
    (chart_name namespace_v image : String) (replicas : Int)
    (env_vars : List (String × String)) (args : List String)
    (resources security_context : Option Yaml)
    (image_pull_secrets : List String) (probes : Yaml)
    (_h : chart_name ≠ "") :
    (generate_values chart_name namespace_v image replicas env_vars args resources
        security_context image_pull_secrets probes).2.1 = chart_name ++ "-deployment"
    ∧ (generate_values chart_name namespace_v image replicas env_vars args resources
        security_context image_pull_secrets probes).2.2.1 = chart_name ++ "-service"
    ∧ (generate_values chart_name namespace_v image replicas env_vars args resources
        security_context image_pull_secrets probes).2.2.2 = chart_name ++ "-serviceaccount" :=
  ⟨rfl, rfl, rfl⟩

/-- Witness for C6 at the concrete chart name `demo`. -/
theorem c6_derived_names_witness :
    ("demo" : String) ≠ ""
    ∧ ((generate_values "demo" "default" "img" 1 [] [] none none [] probesDisabled).2.1
        = "demo" ++ "-deployment"
      ∧ (generate_values "demo" "default" "img" 1 [] [] none none [] probesDisabled).2.2.1
        = "demo" ++ "-service"
      ∧ (generate_values "demo" "default" "img" 1 [] [] none none [] probesDisabled).2.2.2
        = "demo" ++ "-serviceaccount") :=
  ⟨by decide,
   c6_derived_names "demo" "default" "img" 1 [] [] none none [] probesDisabled (by decide)⟩

/-- C2, counterexample: on the values document of the all-default run the
serialized top-level key order (PyYAML sorts keys by default) differs from
the insertion order of the source mapping, so serialization does not
preserve insertion order. -/
theorem c2_insertion_order_counterexample :
    dumpTopLevelKeys
        (generate_values "my-chart" "default" "my-image" 1 [] [] none none [] probesDisabled).1
      ≠ ((generate_values "my-chart" "default" "my-image" 1 [] [] none none [] probesDisabled).1.map
          Prod.fst) := by
  decide

/-- C2 as amended: the mapping is inserted in the order namespace,
replicaCount, image, resources, securityContext,
automountServiceAccountToken, imagePullSecrets, nameOverride,
fullnameOverride, serviceAccount, probes, env, args, but `yaml.dump`
(called with its default `sort_keys=True`) emits the top-level keys in
sorted order, for every values document the assembler produces. -/
theorem c2_serialized_key_order_sorted
    (chart_name namespace_v image : String) (replicas : Int)
    (env_vars : List (String × String)) (args : List String)
    (resources security_context : Option Yaml)
    (image_pull_secrets : List String) (probes : Yaml) :
    ((generate_values chart_name namespace_v image replicas env_vars args resources
        security_context image_pull_secrets probes).1.map Prod.fst
      = ["namespace", "replicaCount", "image", "resources", "securityContext",
         "automountServiceAccountToken", "imagePullSecrets", "nameOverride",
         "fullnameOverride", "serviceAccount", "probes", "env", "args"])
    ∧ dumpTopLevelKeys (generate_values chart_name namespace_v image replicas env_vars
        args resources security_context image_pull_secrets probes).1
      = ["args", "automountServiceAccountToken", "env", "fullnameOverride", "image",
         "imagePullSecrets", "nameOverride", "namespace", "probes", "replicaCount",
         "resources", "securityContext", "serviceAccount"] :=
  ⟨rfl, rfl⟩

set_option maxRecDepth 100000 in
/-- C5: mode `"1"` yields two documents, a ClusterRole and a
ClusterRoleBinding, referencing the service-account placeholder (which the
values document binds to the computed `<chart>-serviceaccount` name); mode
`"2"` yields two namespace-scoped documents, a Role and a RoleBinding,
scoped to the chosen namespace via the namespace placeholder; every other
mode string yields the empty artifact. -/
theorem c5_rbac_modes
    (values : List (String × Yaml))
    (chart_name namespace_v image : String) (replicas : Int)
    (env_vars : List (String × String)) (args : List String)
    (resources security_context : Option Yaml)
    (image_pull_secrets : List String) (probes : Yaml)
    (s : String) (h1 : s ≠ "1") (h2 : s ≠ "2") :
    occCount "\n---\n" (generate_rbac "1" values) = 1
    ∧ occCount "\nkind: ClusterRole\n" (generate_rbac "1" values) = 1
    ∧ occCount "\nkind: ClusterRoleBinding\n" (generate_rbac "1" values) = 1
    ∧ occursStr "\x7b\x7b .Values.serviceAccount.name \x7d\x7d" (generate_rbac "1" values) = true
    ∧ occCount "\n---\n" (generate_rbac "2" values) = 1
    ∧ occCount "\nkind: Role\n" (generate_rbac "2" values) = 1
    ∧ occCount "\nkind: RoleBinding\n" (generate_rbac "2" values) = 1
    ∧ occursStr "namespace: \x7b\x7b .Values.namespace \x7d\x7d" (generate_rbac "2" values) = true
    ∧ occursStr "\x7b\x7b .Values.serviceAccount.name \x7d\x7d" (generate_rbac "2" values) = true
    ∧ lookupKey "serviceAccount" (generate_values chart_name namespace_v image replicas
        env_vars args resources security_context image_pull_secrets probes).1
      = some (.map [("name", .str (chart_name ++ "-serviceaccount"))])
    ∧ generate_rbac s values = "" := by
  refine ⟨rfl, rfl, rfl, rfl, rfl, rfl, rfl, rfl, rfl, rfl, ?_⟩
  simp [generate_rbac, h1, h2]

/-- Witness for C5 at the default mode string `"0"`. -/
theorem c5_rbac_modes_witness :
    ("0" : String) ≠ "1" ∧ ("0" : String) ≠ "2" ∧ generate_rbac "0" [] = "" :=
  ⟨by decide, by decide,
   (c5_rbac_modes [] "demo" "default" "img" 1 [] [] none none [] probesDisabled "0"
     (by decide) (by decide)).2.2.2.2.2.2.2.2.2.2⟩

/-- C7: the pipeline is a pure function of the answer sequence — two runs
given identical answers produce identical results, in particular
byte-identical contents for each of the five written files. -/
theorem c7_deterministic (input1 input2 : List String) (h : input1 = input2) :
    generate_chart_files input1 = generate_chart_files input2 := by
  rw [h]

/-- Witness for C7 at a concrete answer sequence. -/
theorem c7_deterministic_witness :
    (["demo", "default", "img", "1", "no", "no", "no", "no", "no", "no", "0"] : List String)
      = ["demo", "default", "img", "1", "no", "no", "no", "no", "no", "no", "0"]
    ∧ generate_chart_files ["demo", "default", "img", "1", "no", "no", "no", "no", "no", "no", "0"]
      = generate_chart_files ["demo", "default", "img", "1", "no", "no", "no", "no", "no", "no", "0"] :=
  ⟨rfl, c7_deterministic _ _ rfl⟩

/-- The argument loop returns exactly the non-empty entries preceding the
terminating empty line, in entry order. -/
theorem collectArgs_entries : ∀ (entries rest : List String),
    (∀ e ∈ entries, e ≠ "") →
    collectArgs (entries ++ "" :: rest) = .ok (entries, rest)
  | [], _, _ => by simp [collectArgs]
  | e :: es, rest, h => by
    have he : e ≠ "" := h e (List.mem_cons_self e es)
    have ih := collectArgs_entries es rest (fun x hx => h x (List.mem_cons_of_mem e hx))
    simp [collectArgs, he, ih]

/-- C8: the `args` entry of every values document is a list — equal to the
collected argument list itself (so empty exactly when no arguments were
supplied) — and the collection loop records the entered arguments in entry
order. -/
theorem c8_args_always_list_in_order
    (chart_name namespace_v image : String) (replicas : Int)
    (env_vars : List (String × String)) (args : List String)
    (resources security_context : Option Yaml)
    (image_pull_secrets : List String) (probes : Yaml)
    (entries rest : List String) (h : ∀ e ∈ entries, e ≠ "") :
    lookupKey "args" (generate_values chart_name namespace_v image replicas env_vars
        args resources security_context image_pull_secrets probes).1
      = some (.list (args.map (fun a => .str a)))
    ∧ collectArgs (entries ++ "" :: rest) = .ok (entries, rest) := by
  constructor
  · cases args with
    | nil => rfl
    | cons a rest2 => rfl
  · exact collectArgs_entries entries rest h

/-- Witness for C8 at concrete arguments and loop entries. -/
theorem c8_args_always_list_in_order_witness :
    (∀ e ∈ (["a1", "a2"] : List String), e ≠ "")
    ∧ (lookupKey "args"
          (generate_values "demo" "default" "img" 1 [] ["x", "y"] none none [] probesDisabled).1
        = some (.list ((["x", "y"] : List String).map (fun a => .str a)))
      ∧ collectArgs (["a1", "a2"] ++ "" :: []) = .ok (["a1", "a2"], [])) :=
  ⟨by decide,
   c8_args_always_list_in_order "demo" "default" "img" 1 [] ["x", "y"] none none []
     probesDisabled ["a1", "a2"] [] (by decide)⟩

/-- A scan that meets no `'='` finds no split point. -/
theorem splitEqAux_no_eq : ∀ (cs acc : List Char),
    (∀ c ∈ cs, c ≠ '=') → splitEqAux cs acc = none
  | [], _, _ => rfl
  | c :: cs, acc, h => by
    have hc : c ≠ '=' := h c (List.mem_cons_self c cs)
    have ih := splitEqAux_no_eq cs (c :: acc) (fun x hx => h x (List.mem_cons_of_mem c hx))
    simp [splitEqAux, hc, ih]

/-- An entry containing no `'='` has no `key=value` split. -/
theorem split_first_eq_no_eq (s : String) (h : ∀ c ∈ s.data, c ≠ '=') :
    split_first_eq s = none :=
  splitEqAux_no_eq s.data [] h

/-- C4: a non-empty environment entry without `'='` terminates the run with
the input-format error carrying that entry, and the run performs no
filesystem operation: all writes happen strictly after collection, which
never completes. -/
theorem c4_bad_env_entry_aborts (c ns img e : String) (rest : List String)
    (h1 : e ≠ "") (h2 : ∀ ch ∈ e.data, ch ≠ '=') :
    generate_chart_files (c :: ns :: img :: "1" :: "yes" :: e :: rest)
      = .error (.badEnvEntry e)
    ∧ emittedWrites (generate_chart_files (c :: ns :: img :: "1" :: "yes" :: e :: rest))
      = [] := by
  have hsplit := split_first_eq_no_eq e h2
  have hint : pyInt "1" = some 1 := rfl
  have hgate : pyLower "yes" = "yes" := rfl
  have hcoll : collectAnswers (c :: ns :: img :: "1" :: "yes" :: e :: rest)
      = .error (.badEnvEntry e) := by
    simp [collectAnswers, ask1, collectEnvVars, h1, hsplit, hint, hgate]
  exact ⟨by simp [generate_chart_files, hcoll],
         by simp [generate_chart_files, emittedWrites, hcoll]⟩

/-- Witness for C4 at the concrete bad entry `BADENTRY` from the spec. -/
theorem c4_bad_env_entry_aborts_witness :
    ("BADENTRY" : String) ≠ ""
    ∧ (∀ ch ∈ ("BADENTRY" : String).data, ch ≠ '=')
    ∧ (generate_chart_files ["demo", "default", "img", "1", "yes", "BADENTRY"]
        = .error (.badEnvEntry "BADENTRY")
      ∧ emittedWrites (generate_chart_files ["demo", "default", "img", "1", "yes", "BADENTRY"])
        = []) :=
  ⟨by decide, by decide,
   c4_bad_env_entry_aborts "demo" "default" "img" "BADENTRY" [] (by decide) (by decide)⟩

/-- Answer stream whose security-context question receives `a`, every other
optional block being declined. -/
def secGateStream (a : String) : List String :=
  ["demo", "default", "img", "1", "no", "no", "no", a, "no", "no", "0"]

/-- C1, counterexample: on a run answering yes to the security-context
question, the installed block maps `readOnlyRootFilesystem` to `false` —
the root filesystem is left writable, not made read-only as claimed. -/
theorem c1_read_only_root_counterexample :
    (collectAnswers (secGateStream "yes")).map (fun r => r.security_context)
      = .ok (some securityContextFixed)
    ∧ yGet securityContextFixed "readOnlyRootFilesystem" = .bool false
    ∧ ¬ yGet securityContextFixed "readOnlyRootFilesystem" = .bool true := by
  refine ⟨rfl, rfl, fun hcon => ?_⟩
  exact Bool.noConfusion (Yaml.bool.inj hcon)

/-- C1 as amended: whenever the security-context question is answered yes,
the block installed into the request — and, through the assembler, into the
values document — is exactly: privilege escalation disallowed, root
filesystem writable (`readOnlyRootFilesystem = false`), run as non-root,
run as UID 1000. -/
theorem c1_security_context_block (a : String) (h : pyLower a = "yes") :
    (collectAnswers (secGateStream a)).map
        (fun r => (r.security_context, lookupKey "securityContext" (valuesOf r)))
      = .ok (some securityContextFixed, some securityContextFixed) := by
  have ha : a ≠ "" := fun h0 => by rw [h0] at h; exact absurd h (by decide)
  have hno : ¬ (pyLower "no" = "yes") := by decide
  have hint : pyInt "1" = some 1 := rfl
  have hrec : collectAnswers (secGateStream a)
      = .ok { baseReq with security_context := some securityContextFixed } := by
    simp [collectAnswers, secGateStream, ask1, ha, h, hno, hint, baseReq]
  rw [hrec]
  rfl

/-- Witness for the amended C1 theorem at the literal answer `yes`. -/
theorem c1_security_context_block_witness :
    pyLower "yes" = "yes"
    ∧ (collectAnswers (secGateStream "yes")).map
        (fun r => (r.security_context, lookupKey "securityContext" (valuesOf r)))
      = .ok (some securityContextFixed, some securityContextFixed) :=
  ⟨rfl, c1_security_context_block "yes" rfl⟩

/-- Answer stream whose resources question receives `a`, every other
optional block being declined. -/
def resGateStream (a : String) : List String :=
  ["demo", "default", "img", "1", "no", "no", a, "no", "no", "no", "0"]

set_option maxRecDepth 100000 in
/-- C3: declining the resources question leaves the values document with an
empty `resources` mapping (no resources configuration) and the rendered
deployment without any resources section; accepting installs exactly the
fixed block — requests cpu `100m`, memory `256Mi`; limits cpu `0.5`, memory
`512Mi` — in the values document and, through the modelled downstream
rendering, in the rendered deployment. -/
theorem c3_resources_fixed_or_absent (a : String) :
    (collectAnswers (resGateStream a)).map (fun r => lookupKey "resources" (valuesOf r))
      = .ok (some (if pyLower a = "yes" then resourcesFixed else .map []))
    ∧ (collectAnswers (resGateStream a)).map
        (fun r => occursStr "resources:" (renderedDeployment (valuesOf r)))
      = .ok (if pyLower a = "yes" then true else false)
    ∧ (collectAnswers (resGateStream a)).map
        (fun r => occursStr "cpu: 100m" (renderedDeployment (valuesOf r)))
      = .ok (if pyLower a = "yes" then true else false)
    ∧ (collectAnswers (resGateStream a)).map
        (fun r => occursStr "memory: 256Mi" (renderedDeployment (valuesOf r)))
      = .ok (if pyLower a = "yes" then true else false)
    ∧ (collectAnswers (resGateStream a)).map
        (fun r => occursStr "cpu: 0.5" (renderedDeployment (valuesOf r)))
      = .ok (if pyLower a = "yes" then true else false)
    ∧ (collectAnswers (resGateStream a)).map
        (fun r => occursStr "memory: 512Mi" (renderedDeployment (valuesOf r)))
      = .ok (if pyLower a = "yes" then true else false) := by
  have hno : ¬ (pyLower "no" = "yes") := by decide
  have hint : pyInt "1" = some 1 := rfl
  by_cases ha : a = ""
  · subst ha
    exact ⟨rfl, rfl, rfl, rfl, rfl, rfl⟩
  · by_cases hy : pyLower a = "yes"
    · have hrec : collectAnswers (resGateStream a)
          = .ok { baseReq with resources := some resourcesFixed } := by
        simp [collectAnswers, resGateStream, ask1, ha, hy, hno, hint, baseReq]
      rw [hrec]
      simp only [hy]
      exact ⟨rfl, rfl, rfl, rfl, rfl, rfl⟩
    · have hrec : collectAnswers (resGateStream a) = .ok baseReq := by
        simp [collectAnswers, resGateStream, ask1, ha, hy, hno, hint, baseReq]
      rw [hrec]
      simp only [hy, if_neg, if_false]
      exact ⟨rfl, rfl, rfl, rfl, rfl, rfl⟩

/-- Answer stream whose environment-variables question receives `a`; the
trailing lines are laid out so that both branches see the same answers for
every later question. -/
def envGateStream (a : String) : List String :=
  ["demo", "default", "img", "1", a, "K=V", "", "K=V", "", "K=V", "", "K=V", ""]

/-- Answer stream whose container-arguments question receives `a`. -/
def argsGateStream (a : String) : List String :=
  ["demo", "default", "img", "1", "no", a, "ARG", "", "ARG", "", "ARG", "", "ARG"]

/-- Answer stream whose image-pull-secrets question receives `a`. -/
def ipsGateStream (a : String) : List String :=
  ["demo", "default", "img", "1", "no", "no", "no", "no", a, "mysecret", "mysecret", "mysecret"]

/-- Answer stream whose probes question receives `a`. -/
def probesGateStream (a : String) : List String :=
  ["demo", "default", "img", "1", "no", "no", "no", "no", "no", a, "0"]

set_option maxRecDepth 100000 in
/-- C9: each optional block is enabled exactly when the lowercased answer
to its yes/no question is the string `yes`; any other answer — `y`,
`YES ` with a trailing space, garbage, or an empty line — declines the
block, and the run still completes without error. -/
theorem c9_gate_exact_yes (a : String) :
    collectAnswers (envGateStream a)
      = .ok { baseReq with env_vars := if pyLower a = "yes" then [("K", "V")] else [] }
    ∧ collectAnswers (argsGateStream a)
      = .ok { baseReq with args := if pyLower a = "yes" then ["ARG"] else [],
                           rbac_type := "ARG" }
    ∧ collectAnswers (resGateStream a)
      = .ok { baseReq with resources := if pyLower a = "yes" then some resourcesFixed else none }
    ∧ collectAnswers (secGateStream a)
      = .ok { baseReq with security_context :=
                             if pyLower a = "yes" then some securityContextFixed else none }
    ∧ collectAnswers (ipsGateStream a)
      = .ok { baseReq with image_pull_secrets := if pyLower a = "yes" then ["mysecret"] else [],
                           rbac_type := "mysecret" }
    ∧ collectAnswers (probesGateStream a)
      = .ok { baseReq with probes := if pyLower a = "yes" then probesEnabled else probesDisabled } := by
  have hno : ¬ (pyLower "no" = "yes") := by decide
  have hkv : ¬ (pyLower "K=V" = "yes") := by decide
  have harg : ¬ (pyLower "ARG" = "yes") := by decide
  have hsec : ¬ (pyLower "mysecret" = "yes") := by decide
  have hint : pyInt "1" = some 1 := rfl
  have hsplit : split_first_eq "K=V" = some ("K", "V") := rfl
  by_cases ha : a = ""
  · subst ha
    exact ⟨rfl, rfl, rfl, rfl, rfl, rfl⟩
  · by_cases hy : pyLower a = "yes"
    · refine ⟨?_, ?_, ?_, ?_, ?_, ?_⟩ <;>
        simp [collectAnswers, envGateStream, argsGateStream, resGateStream, secGateStream,
              ipsGateStream, probesGateStream, ask1, askOpt, collectEnvVars, collectArgs,
              ha, hy, hno, hkv, harg, hsec, hint, hsplit, baseReq]
    · refine ⟨?_, ?_, ?_, ?_, ?_, ?_⟩ <;>
        simp [collectAnswers, envGateStream, argsGateStream, resGateStream, secGateStream,
              ipsGateStream, probesGateStream, ask1, askOpt, collectEnvVars, collectArgs,
              ha, hy, hno, hkv, harg, hsec, hint, hsplit, baseReq]

end EasyHelm
